import Mathlib

/-!
Verification development for the diary record-keeper's data-access core
(`src/db/sqlite.rs`, `src/db/postgres.rs`, `src/db/mod.rs`, `src/models/entry.rs`).

The stateful SQL layer is shallowly embedded: the `entries` table is a list of
rows, timestamps are abstract `Nat` clock ticks supplied by the caller (the
backend stamps them), and each operation is a pure function that returns an
`Except`-style outcome together with the table state after the call.  Error
values mirror the spec's taxonomy: `invalidArgument` carries the source's
message strings ("Page and per_page must be positive", "At least one field
must be provided for update"), `notFound` carries the id from "Entry with id:
{id} doesn't exist".
-/

/-- Sort order for `read_entries`, from `SortOrder` in `src/db/mod.rs`. -/
inductive SortOrder
  | ASC
  | DESC
deriving DecidableEq, Repr

/-- Diary row, from `Entry` in `src/models/entry.rs`: `id: i64`,
`content: String`, `created_at: DateTime<Utc>` (modelled as an abstract `Nat`
clock tick), `updated_at: Option<DateTime<Utc>>`, `pinned: bool`. -/
structure Entry where
  id : Int
  content : String
  created_at : Nat
  updated_at : Option Nat
  pinned : Bool
deriving DecidableEq, Repr

/-- Error outcomes of the data-access layer.  The source returns `anyhow`
errors; the spec's taxonomy classifies them as `InvalidArgument` (with the
source message), `NotFound` (for "Entry with id: {id} doesn't exist"), or
`Persistence` for failures raised by the SQL engine itself and surfaced
through an added context message (such as "Failed to read entries" when
Postgres rejects a negative OFFSET). -/
inductive DbError
  | invalidArgument (msg : String)
  | notFound (id : Int)
  | persistence (msg : String)
deriving DecidableEq, Repr

/-- Recognizer for the `InvalidArgument` error kind. -/
def DbError.isInvalidArgument : DbError → Bool
  | .invalidArgument _ => true
  | .notFound _ => false
  | .persistence _ => false

/-- State of the SQLite backend: just the `entries` table.  The next rowid is
not stored: SQLite's `INTEGER PRIMARY KEY` without `AUTOINCREMENT` assigns
one greater than the largest rowid currently in the table. -/
structure SqliteState where
  rows : List Entry
deriving DecidableEq, Repr

/-- State of the Postgres backend: the `entries` table plus the `BIGSERIAL`
sequence counter, which starts at 1 and is never decremented. -/
structure PgState where
  rows : List Entry
  seq : Int
deriving DecidableEq, Repr

/-- Fresh SQLite database right after `create_schema`: empty table. -/
def sqliteInit : SqliteState := ⟨[]⟩

/-- Fresh Postgres database right after `create_schema`: empty table,
sequence at 1. -/
def pgInit : PgState := ⟨[], 1⟩

/-- SQL `LIKE` pattern matching on character lists, folding case (both the
SQLite default `LIKE` on ASCII and Postgres `ILIKE` compare
case-insensitively).  `%` matches any sequence, `_` any single character;
other characters match up to case.  The user value is never escaped, so its
`%`/`_` characters keep their wildcard meaning, as §4.3 of the spec notes. -/
def likeChars : List Char → List Char → Bool
  | [], t => t.isEmpty
  | '%' :: ps, t =>
    likeChars ps t ||
      (match t with
       | [] => false
       | _ :: ts => likeChars ('%' :: ps) ts)
  | '_' :: ps, t =>
    (match t with
     | [] => false
     | _ :: ts => likeChars ps ts)
  | p :: ps, t =>
    (match t with
     | [] => false
     | c :: ts => (p.toLower == c.toLower) && likeChars ps ts)
termination_by p t => p.length + t.length

/-- Case-insensitive `LIKE` on strings. -/
def likeInsensitive (pattern text : String) : Bool :=
  likeChars pattern.data text.data

/-- WHERE clause of `read_entries`: the pinned-equality condition (bound
first) AND the substring condition `content LIKE '%substr%'` (SQLite) /
`content ILIKE '%substr%'` (Postgres); an absent filter imposes no
condition. -/
def entryMatches (pinned : Option Bool) (substring : Option String) (e : Entry) : Bool :=
  (match pinned with
   | some p => e.pinned == p
   | none => true) &&
  (match substring with
   | some s => likeInsensitive ("%" ++ s ++ "%") e.content
   | none => true)

/-- Compound order key of `read_entries`:
`ORDER BY created_at {o}, id {o}` with the same direction `o` on both
components — `created_at` primary, `id` tie-break. -/
def entryKeyLE : SortOrder → Entry → Entry → Prop
  | SortOrder.ASC, a, b =>
    a.created_at < b.created_at ∨ (a.created_at = b.created_at ∧ a.id ≤ b.id)
  | SortOrder.DESC, a, b =>
    b.created_at < a.created_at ∨ (b.created_at = a.created_at ∧ b.id ≤ a.id)

instance entryKeyLE.instDecidable (s : SortOrder) : DecidableRel (entryKeyLE s) :=
fun a b =>
  match s with
  | SortOrder.ASC => inferInstanceAs (Decidable (_ ∨ _))
  | SortOrder.DESC => inferInstanceAs (Decidable (_ ∨ _))

/-- Two's-complement wrap-around of an unbounded integer to the `i64`
range `[-9223372036854775808, 9223372036854775807]`, i.e. reduction modulo
2^64 centred on zero.  The source computes
`let offset = (page - 1) * per_page;` in `i64`, which wraps in release
builds (the semantics modelled here; debug builds panic instead). -/
def wrap64 (x : Int) : Int :=
  (x + 9223372036854775808) % 18446744073709551616 - 9223372036854775808

/-- Rows visible to `read_entries` before pagination: the table filtered by
the WHERE clause, then sorted by the compound key (sort direction defaults
to `DESC`). -/
def visibleEntries (rows : List Entry) (sort : Option SortOrder)
    (pinned : Option Bool) (substring : Option String) : List Entry :=
  List.insertionSort (entryKeyLE (sort.getD SortOrder.DESC))
    (rows.filter (entryMatches pinned substring))

/-- Largest id present in the table (0 when empty), as used by SQLite's
rowid assignment. -/
def sqliteMaxId (rows : List Entry) : Int :=
  rows.foldl (fun m e => max m e.id) 0

/-- SQLite `create_entry` (`src/db/sqlite.rs` lines 58-68) together with the
schema defaults of `create_schema` (lines 31-38):
`INSERT INTO entries (content, pinned) VALUES($1, $2) RETURNING *`.
The engine assigns `id` as one greater than the largest rowid in the table
(`INTEGER PRIMARY KEY` without `AUTOINCREMENT`), stamps
`created_at DEFAULT (datetime('now'))`, and — per the schema's
`updated_at DATETIME DEFAULT (datetime('now'))` — also stamps `updated_at`
with the insertion time. -/
def sqliteCreateEntry (st : SqliteState) (now : Nat) (content : String)
    (pinned : Bool) : Entry × SqliteState :=
  let e : Entry :=
    { id := sqliteMaxId st.rows + 1
      content := content
      created_at := now
      updated_at := some now
      pinned := pinned }
  (e, ⟨st.rows ++ [e]⟩)

/-- SQLite `check_if_entry_exists`: `SELECT 1 FROM entries WHERE id = $1`
fetched optionally, true iff some row has the id. -/
def sqliteCheckIfEntryExists (st : SqliteState) (id : Int) : Bool :=
  st.rows.any (fun e => e.id == id)

/-- SQLite `read_entry`: `SELECT * FROM entries WHERE id = $1` with
`fetch_one`; the missing-row failure is the spec's `NotFound`. -/
def sqliteReadEntry (st : SqliteState) (id : Int) : Except DbError Entry :=
  match st.rows.find? (fun e => e.id == id) with
  | some e => .ok e
  | none => .error (.notFound id)

/-- SQLite `read_entries` (`src/db/sqlite.rs` lines 70-136): defaults
`page := 1`, `per_page := 10`, rejects `page < 1 || per_page < 1` before any
query, defaults `sort := DESC`, then runs
`SELECT * FROM entries [WHERE ...] ORDER BY created_at {o}, id {o}
LIMIT per_page OFFSET (page-1)*per_page`.  The offset is computed in `i64`,
so each arithmetic step wraps (release-build semantics); SQLite treats a
negative OFFSET the same as zero, which `Int.toNat` models by clamping
negatives to 0. -/
def sqliteReadEntries (st : SqliteState) (page per_page : Option Int)
    (sort : Option SortOrder) (pinned : Option Bool)
    (substring : Option String) : Except DbError (List Entry) :=
  let page := page.getD 1
  let per_page := per_page.getD 10
  if page < 1 ∨ per_page < 1 then
    .error (.invalidArgument "Page and per_page must be positive")
  else
    let offset := wrap64 (wrap64 (page - 1) * per_page)
    .ok (((visibleEntries st.rows sort pinned substring).drop offset.toNat).take
      per_page.toNat)

/-- Effect of one SQLite `UPDATE` on a matching row: the supplied fields are
overwritten and the `update_entries_updated_at` trigger unconditionally sets
`updated_at = datetime('now')`. -/
def sqliteApplyUpdate (now : Nat) (content : Option String)
    (pinned : Option Bool) (e : Entry) : Entry :=
  { e with
    content := content.getD e.content
    pinned := pinned.getD e.pinned
    updated_at := some now }

/-- Row produced by the `RETURNING *` clause of SQLite's `UPDATE`: the
supplied fields are overwritten, but `RETURNING` reflects only the
statement's own changes, not the subsequent `AFTER UPDATE` trigger, so the
returned row still carries the pre-update `updated_at` even though the
stored row (see `sqliteApplyUpdate`) has it freshly stamped. -/
def sqliteReturningRow (content : Option String) (pinned : Option Bool)
    (e : Entry) : Entry :=
  { e with
    content := content.getD e.content
    pinned := pinned.getD e.pinned }

/-- SQLite `update_entry` (`src/db/sqlite.rs` lines 161-218): existence
pre-check first (`NotFound` on failure), then rejection of the no-op update
(`InvalidArgument`), then `UPDATE entries SET ... WHERE id = $1 RETURNING *`
with `fetch_one` returning the first updated row as of the statement itself
(stale `updated_at`), while the stored table also receives the `AFTER
UPDATE` trigger's `updated_at` stamp. -/
def sqliteUpdateEntry (st : SqliteState) (now : Nat) (id : Int)
    (content : Option String) (pinned : Option Bool) :
    Except DbError Entry × SqliteState :=
  if !sqliteCheckIfEntryExists st id then
    (.error (.notFound id), st)
  else if content.isNone && pinned.isNone then
    (.error (.invalidArgument "At least one field must be provided for update"), st)
  else
    match st.rows.find? (fun e => e.id == id) with
    | some e =>
      (.ok (sqliteReturningRow content pinned e),
       ⟨st.rows.map (fun r => if r.id == id then sqliteApplyUpdate now content pinned r else r)⟩)
    | none => (.error (.notFound id), st)

/-- SQLite `delete_entry` (`src/db/sqlite.rs` lines 220-236): existence
pre-check first (`NotFound` on failure), then
`DELETE FROM entries WHERE id = $1`. -/
def sqliteDeleteEntry (st : SqliteState) (id : Int) :
    Except DbError Unit × SqliteState :=
  if !sqliteCheckIfEntryExists st id then
    (.error (.notFound id), st)
  else
    (.ok (), ⟨st.rows.filter (fun e => !(e.id == id))⟩)

/-- Postgres `create_entry` (`src/db/postgres.rs` lines 132-142) with the
schema of `create_schema` (lines 69-76):
`INSERT INTO entries (content, pinned) VALUES($1, $2) RETURNING *`.
`id` comes from the `BIGSERIAL` sequence (which then advances and never goes
back), `created_at` defaults to the current timestamp, and `updated_at` has
no default, so it is NULL on a fresh row. -/
def pgCreateEntry (st : PgState) (now : Nat) (content : String)
    (pinned : Bool) : Entry × PgState :=
  let e : Entry :=
    { id := st.seq
      content := content
      created_at := now
      updated_at := none
      pinned := pinned }
  (e, ⟨st.rows ++ [e], st.seq + 1⟩)

/-- Postgres `check_if_entry_exists`: `SELECT 1 FROM entries WHERE id = $1`
fetched optionally, true iff some row has the id. -/
def pgCheckIfEntryExists (st : PgState) (id : Int) : Bool :=
  st.rows.any (fun e => e.id == id)

/-- Postgres `read_entry`: `SELECT * FROM entries WHERE id = $1` with
`fetch_one`; the missing-row failure is the spec's `NotFound`. -/
def pgReadEntry (st : PgState) (id : Int) : Except DbError Entry :=
  match st.rows.find? (fun e => e.id == id) with
  | some e => .ok e
  | none => .error (.notFound id)

/-- Postgres `read_entries` (`src/db/postgres.rs` lines 144-209): identical
query construction to the SQLite version, with `ILIKE` as the
case-insensitive match operator.  The offset is computed in `i64`, so each
arithmetic step wraps (release-build semantics); unlike SQLite, Postgres
rejects a negative OFFSET with an SQL error ("OFFSET must not be
negative"), which `fetch_all` surfaces through the "Failed to read entries"
context as a persistence error. -/
def pgReadEntries (st : PgState) (page per_page : Option Int)
    (sort : Option SortOrder) (pinned : Option Bool)
    (substring : Option String) : Except DbError (List Entry) :=
  let page := page.getD 1
  let per_page := per_page.getD 10
  if page < 1 ∨ per_page < 1 then
    .error (.invalidArgument "Page and per_page must be positive")
  else
    let offset := wrap64 (wrap64 (page - 1) * per_page)
    if offset < 0 then
      .error (.persistence "Failed to read entries")
    else
      .ok (((visibleEntries st.rows sort pinned substring).drop offset.toNat).take
        per_page.toNat)

/-- Effect of one Postgres `UPDATE` on a matching row: the supplied fields
are overwritten, and the `update_updated_at_column` BEFORE trigger stamps
`updated_at = CURRENT_TIMESTAMP` only when
`NEW.* IS DISTINCT FROM OLD.*`, i.e. only when the row actually changed. -/
def pgApplyUpdate (now : Nat) (content : Option String)
    (pinned : Option Bool) (e : Entry) : Entry :=
  let changed : Entry :=
    { e with
      content := content.getD e.content
      pinned := pinned.getD e.pinned }
  if changed = e then e else { changed with updated_at := some now }

/-- Postgres `update_entry` (`src/db/postgres.rs` lines 231-283): existence
pre-check first (`NotFound` on failure), then rejection of the no-op update
(`InvalidArgument`), then `UPDATE entries SET ... WHERE id = $1 RETURNING *`
with `fetch_one` returning the first updated row. -/
def pgUpdateEntry (st : PgState) (now : Nat) (id : Int)
    (content : Option String) (pinned : Option Bool) :
    Except DbError Entry × PgState :=
  if !pgCheckIfEntryExists st id then
    (.error (.notFound id), st)
  else if content.isNone && pinned.isNone then
    (.error (.invalidArgument "At least one field must be provided for update"), st)
  else
    match st.rows.find? (fun e => e.id == id) with
    | some e =>
      (.ok (pgApplyUpdate now content pinned e),
       ⟨st.rows.map (fun r => if r.id == id then pgApplyUpdate now content pinned r else r),
        st.seq⟩)
    | none => (.error (.notFound id), st)

/-- Postgres `delete_entry` (`src/db/postgres.rs` lines 285-301): existence
pre-check first (`NotFound` on failure), then
`DELETE FROM entries WHERE id = $1`.  The `BIGSERIAL` sequence is not
touched by deletion. -/
def pgDeleteEntry (st : PgState) (id : Int) :
    Except DbError Unit × PgState :=
  if !pgCheckIfEntryExists st id then
    (.error (.notFound id), st)
  else
    (.ok (), ⟨st.rows.filter (fun e => !(e.id == id)), st.seq⟩)

/-- Backend selected by the storage facade `DiaryDB` in `src/db/mod.rs`. -/
inductive Backend
  | sqlite
  | postgres
deriving DecidableEq, Repr

/-- Rust `str::starts_with` modelled on character lists. -/
def startsWithRust (s pre : String) : Bool :=
  pre.data.isPrefixOf s.data

/-- Facade construction `DiaryDB::new` (`src/db/mod.rs` lines 146-158):
a URL starting with `sqlite:` selects the SQLite engine, otherwise one
starting with `postgres:` selects the Postgres engine, otherwise the call
fails with "Unsupported database URL" before constructing any engine. -/
def DiaryDB.new (url : String) : Except String Backend :=
  if startsWithRust url "sqlite:" then .ok .sqlite
  else if startsWithRust url "postgres:" then .ok .postgres
  else .error "Unsupported database URL"

/-- Externally visible steps of engine construction, used to model the
control flow of `SQLiteDiaryDB::new` and `PostgresDiaryDB::new`:
`connectAdmin` is Postgres's bootstrap connection to the `postgres` admin
database, `createDatabase` the physical database/file creation,
`openPool` the pooled connection to the target database, and
`runSchemaScript` the execution of the idempotent schema script
(`create_schema`). -/
inductive InitAction
  | connectAdmin
  | createDatabase
  | openPool
  | runSchemaScript
deriving DecidableEq, Repr

/-- Construction flow of `SQLiteDiaryDB::new` (`src/db/sqlite.rs` lines
11-24), as a function of whether the database file already exists: when it
does not, the file is created and `create_schema` connects a pool and runs
the schema script; when it does, only a pooled connection is opened. -/
def sqliteNewActions (dbExists : Bool) : List InitAction :=
  if !dbExists then
    [InitAction.createDatabase, InitAction.openPool, InitAction.runSchemaScript]
  else
    [InitAction.openPool]

/-- Construction flow of `PostgresDiaryDB::new` (`src/db/postgres.rs` lines
14-61), as a function of whether the target database already exists: an
admin connection checks `pg_database`, the database is created only when
missing, and then — unconditionally — a pool is opened on the target
database and `Self::create_schema(&pool)` runs the schema script. -/
def pgNewActions (dbExists : Bool) : List InitAction :=
  InitAction.connectAdmin ::
    ((if !dbExists then [InitAction.createDatabase] else []) ++
      [InitAction.openPool, InitAction.runSchemaScript])

/-- Operations of the shared storage-engine contract that mutate the table,
used to talk about arbitrary operation sequences; each carries the clock
tick at which it runs. -/
inductive DiaryOp
  | create (content : String) (pinned : Bool)
  | update (id : Int) (content : Option String) (pinned : Option Bool)
  | delete (id : Int)

/-- Ids assigned by the `create` operations of a timed operation sequence
run against a Postgres state, in order of assignment. -/
def pgCreatedIds : PgState → List (Nat × DiaryOp) → List Int
  | _, [] => []
  | st, (now, DiaryOp.create c p) :: rest =>
    (pgCreateEntry st now c p).1.id :: pgCreatedIds (pgCreateEntry st now c p).2 rest
  | st, (now, DiaryOp.update i c p) :: rest =>
    pgCreatedIds (pgUpdateEntry st now i c p).2 rest
  | st, (_, DiaryOp.delete i) :: rest =>
    pgCreatedIds (pgDeleteEntry st i).2 rest

theorem entryKeyLE_total (s : SortOrder) (a b : Entry) :
    entryKeyLE s a b ∨ entryKeyLE s b a := by
  cases s <;> simp only [entryKeyLE] <;> omega

instance entryKeyLE.instIsTotal (s : SortOrder) : IsTotal Entry (entryKeyLE s) :=
⟨entryKeyLE_total s⟩

instance entryKeyLE.instIsTrans (s : SortOrder) : IsTrans Entry (entryKeyLE s) :=
⟨by intro a b c h1 h2; cases s <;> simp only [entryKeyLE] at h1 h2 ⊢ <;> omega⟩

theorem pgUpdateEntry_seq (st : PgState) (now : Nat) (id : Int)
    (c : Option String) (p : Option Bool) :
    ((pgUpdateEntry st now id c p).2).seq = st.seq := by
  unfold pgUpdateEntry
  split
  · rfl
  · split
    · rfl
    · split <;> rfl

theorem pgDeleteEntry_seq (st : PgState) (id : Int) :
    ((pgDeleteEntry st id).2).seq = st.seq := by
  unfold pgDeleteEntry
  split <;> rfl

theorem pgCreatedIds_spec (ops : List (Nat × DiaryOp)) : ∀ st : PgState,
    (∀ x ∈ pgCreatedIds st ops, st.seq ≤ x) ∧
      (pgCreatedIds st ops).Pairwise (· < ·) := by
  induction ops with
  | nil => intro st; simp [pgCreatedIds]
  | cons hd rest ih =>
    intro st
    obtain ⟨t, op⟩ := hd
    cases op with
    | create c p =>
      have hseq : ((pgCreateEntry st t c p).2).seq = st.seq + 1 := rfl
      have hid : ((pgCreateEntry st t c p).1).id = st.seq := rfl
      have ih' := ih (pgCreateEntry st t c p).2
      constructor
      · intro x hx
        simp only [pgCreatedIds, List.mem_cons] at hx
        rcases hx with rfl | hx
        · simp [hid]
        · have hx' := ih'.1 x hx
          rw [hseq] at hx'
          omega
      · simp only [pgCreatedIds]
        refine List.Pairwise.cons ?_ ih'.2
        intro y hy
        have hy' := ih'.1 y hy
        rw [hseq] at hy'
        rw [hid]
        omega
    | update i c p =>
      have hseq := pgUpdateEntry_seq st t i c p
      have ih' := ih (pgUpdateEntry st t i c p).2
      constructor
      · intro x hx
        simp only [pgCreatedIds] at hx
        have hx' := ih'.1 x hx
        rw [hseq] at hx'
        exact hx'
      · simpa only [pgCreatedIds] using ih'.2
    | delete i =>
      have hseq := pgDeleteEntry_seq st i
      have ih' := ih (pgDeleteEntry st i).2
      constructor
      · intro x hx
        simp only [pgCreatedIds] at hx
        have hx' := ih'.1 x hx
        rw [hseq] at hx'
        exact hx'
      · simpa only [pgCreatedIds] using ih'.2

theorem startsWithRust_exclusive (url : String) :
    ¬(startsWithRust url "sqlite:" = true ∧ startsWithRust url "postgres:" = true) := by
  rintro ⟨h1, h2⟩
  unfold startsWithRust at h1 h2
  have hs : "sqlite:".data = ['s', 'q', 'l', 'i', 't', 'e', ':'] := rfl
  have hp : "postgres:".data = ['p', 'o', 's', 't', 'g', 'r', 'e', 's', ':'] := rfl
  rw [hs] at h1
  rw [hp] at h2
  cases hd : url.data with
  | nil =>
    rw [hd] at h1
    simp [List.isPrefixOf] at h1
  | cons c cs =>
    rw [hd] at h1 h2
    simp only [List.isPrefixOf, Bool.and_eq_true, beq_iff_eq] at h1 h2
    exact absurd (h1.1.trans h2.1.symm) (by decide)

theorem wrap64_eq_self (x : Int) (h1 : -9223372036854775808 ≤ x)
    (h2 : x ≤ 9223372036854775807) : wrap64 x = x := by
  unfold wrap64
  omega

theorem sorted_slice (rows : List Entry) (s : SortOrder) (pf : Option Bool)
    (sf : Option String) (n m : Nat) :
    (((visibleEntries rows (some s) pf sf).drop n).take m).Sorted
      (entryKeyLE s) := by
  have hsorted : (visibleEntries rows (some s) pf sf).Sorted (entryKeyLE s) :=
    List.sorted_insertionSort _ _
  exact hsorted.sublist ((List.take_sublist _ _).trans (List.drop_sublist _ _))

/-- C1: the claim says `create` followed by `read_one(new_id)` returns an
Entry with matching `content`, matching `pinned`, `created_at` set and
`updated_at` absent.  The Postgres backend satisfies this, but the SQLite
schema declares `updated_at DATETIME DEFAULT (datetime('now'))`, so on
SQLite a freshly created entry already carries `updated_at` equal to the
insertion time: at the failing input `create("hello", true)` on a fresh
database at tick 5, `read_one(1)` returns `updated_at = some 5` instead of
the absent value the claim (and the spec's own §3/§8) require. -/
theorem create_read_updated_at_divergence :
    ((sqliteCreateEntry sqliteInit 5 "hello" true).1).updated_at = some 5 ∧
    sqliteReadEntry (sqliteCreateEntry sqliteInit 5 "hello" true).2 1 =
      .ok { id := 1, content := "hello", created_at := 5,
            updated_at := some 5, pinned := true } ∧
    ((pgCreateEntry pgInit 5 "hello" true).1).updated_at = none ∧
    pgReadEntry (pgCreateEntry pgInit 5 "hello" true).2 1 =
      .ok { id := 1, content := "hello", created_at := 5,
            updated_at := none, pinned := true } := by
  refine ⟨rfl, rfl, rfl, rfl⟩

/-- C2 counterexample: the claim says the no-op update fails with
`InvalidArgument` regardless of the id's existence, but on an empty table
`update(1, None, None)` fails with the `NotFound` error from the existence
pre-check, which is not an `InvalidArgument` error. -/
theorem update_noop_missing_id_not_invalid :
    (sqliteUpdateEntry sqliteInit 0 1 none none).1 = .error (DbError.notFound 1) ∧
    (DbError.notFound 1).isInvalidArgument = false ∧
    (pgUpdateEntry pgInit 0 1 none none).1 = .error (DbError.notFound 1) :=
  ⟨rfl, rfl, rfl⟩

/-- C2 amended: `update(id)` with both `content` and `pinned` absent always
fails, with `InvalidArgument` when the id exists and with `NotFound` when it
does not, because both backends run the existence pre-check before the
no-op-update check. -/
theorem update_noop_rejected (st : SqliteState) (pst : PgState)
    (now : Nat) (id : Int) :
    sqliteUpdateEntry st now id none none =
      (.error (if sqliteCheckIfEntryExists st id then
          DbError.invalidArgument "At least one field must be provided for update"
        else DbError.notFound id), st) ∧
    pgUpdateEntry pst now id none none =
      (.error (if pgCheckIfEntryExists pst id then
          DbError.invalidArgument "At least one field must be provided for update"
        else DbError.notFound id), pst) := by
  constructor
  · unfold sqliteUpdateEntry
    by_cases h : sqliteCheckIfEntryExists st id <;> simp [h]
  · unfold pgUpdateEntry
    by_cases h : pgCheckIfEntryExists pst id <;> simp [h]

/-- C3 counterexample: the claim says that when the database already exists
construction does not re-run the schema script on either backend, but
`PostgresDiaryDB::new` calls `create_schema` unconditionally, so the schema
script runs even when the database exists. -/
theorem pg_construction_reruns_schema :
    InitAction.runSchemaScript ∈ pgNewActions true := by
  decide

/-- C3 amended: for SQLite, construction against an existing database only
opens a pooled connection and does not run the schema script (the script
runs only on first run, after creating the file); for Postgres, construction
runs the idempotent schema script on every construction — only the physical
database creation is skipped when the database exists. -/
theorem construction_schema_policy :
    sqliteNewActions true = [InitAction.openPool] ∧
    InitAction.runSchemaScript ∉ sqliteNewActions true ∧
    sqliteNewActions false =
      [InitAction.createDatabase, InitAction.openPool, InitAction.runSchemaScript] ∧
    (∀ b : Bool, InitAction.runSchemaScript ∈ pgNewActions b) := by
  refine ⟨rfl, by decide, rfl, ?_⟩
  intro b
  cases b <;> decide

/-- C4 counterexample: the claim says ids are never reused after deletion on
both backends, but SQLite's `INTEGER PRIMARY KEY` without `AUTOINCREMENT`
assigns one greater than the largest current rowid: after creating entries
with ids 1 and 2 and deleting id 2, the next create assigns id 2 again. -/
theorem sqlite_id_reused_after_delete :
    ((sqliteCreateEntry (sqliteCreateEntry sqliteInit 0 "A" false).2 1 "B" false).1.id
      = 2) ∧
    (sqliteDeleteEntry
        (sqliteCreateEntry (sqliteCreateEntry sqliteInit 0 "A" false).2 1 "B" false).2
        2).1 = .ok () ∧
    ((sqliteCreateEntry
        (sqliteDeleteEntry
          (sqliteCreateEntry (sqliteCreateEntry sqliteInit 0 "A" false).2 1 "B" false).2
          2).2
        2 "C" false).1.id = 2) :=
  ⟨rfl, rfl, rfl⟩

/-- C4 amended: on the Postgres backend the `BIGSERIAL` sequence only ever
advances, so along any sequence of create/update/delete operations from a
fresh database the ids assigned by creates are strictly increasing — in
particular an id is never assigned twice, so an id of a deleted entry is
never reused.  (On SQLite an id can be reused once the row with the largest
id is deleted.) -/
theorem pg_ids_never_reused (ops : List (Nat × DiaryOp)) :
    (pgCreatedIds pgInit ops).Pairwise (· < ·) ∧
    (pgCreatedIds pgInit ops).Pairwise (· ≠ ·) := by
  have h := (pgCreatedIds_spec ops pgInit).2
  exact ⟨h, h.imp (fun hlt => ne_of_lt hlt)⟩

/-- C9: neither backend's `create_entry` validates the content argument, so
creating with the empty string succeeds and persists an entry whose content
is the empty string; the spec's non-empty-content precondition is not
enforced at the public interface. -/
theorem create_accepts_empty_content (st : SqliteState) (pst : PgState)
    (now : Nat) (p : Bool) :
    (sqliteCreateEntry st now "" p).1.content = "" ∧
    (sqliteCreateEntry st now "" p).1 ∈ (sqliteCreateEntry st now "" p).2.rows ∧
    (pgCreateEntry pst now "" p).1.content = "" ∧
    (pgCreateEntry pst now "" p).1 ∈ (pgCreateEntry pst now "" p).2.rows := by
  refine ⟨rfl, ?_, rfl, ?_⟩ <;> simp [sqliteCreateEntry, pgCreateEntry]

/-- C5 counterexample: the claim quantifies over every valid `page` and
`per_page`, but the source computes the offset `(page - 1) * per_page` in
`i64`, which wraps for large valid inputs.  At `page = 2^62 + 1`,
`per_page = 4` on a one-row table the true offset is 2^64, far beyond the
table, so the claim requires the empty sequence; the wrapped offset is 0
and SQLite returns the row.  At `per_page = 3` the offset wraps negative
and Postgres fails with the "Failed to read entries" persistence error
instead of returning the empty sequence. -/
theorem read_many_offset_overflow :
    sqliteReadEntries ⟨[⟨1, "A", 0, some 0, false⟩]⟩
        (some 4611686018427387905) (some 4) none none none =
      .ok [⟨1, "A", 0, some 0, false⟩] ∧
    ([⟨1, "A", 0, some 0, false⟩] : List Entry) ≠ [] ∧
    (1 : Int) ≤ 4611686018427387905 ∧ (1 : Int) ≤ 4 ∧
    ([⟨1, "A", 0, some 0, false⟩] : List Entry).length ≤
      (((4611686018427387905 : Int) - 1) * 4).toNat ∧
    pgReadEntries ⟨[⟨1, "A", 0, some 0, false⟩], 2⟩
        (some 4611686018427387905) (some 3) none none none =
      .error (.persistence "Failed to read entries") :=
  ⟨rfl, by decide, by decide, by decide, by decide, rfl⟩

/-- C5 amended: for valid `page` and `per_page` whose offset product
`(page-1)*per_page` fits in `i64`, `read_many` returns exactly the slice of
the filtered-and-sorted rows that skips `(page-1)*per_page` rows and takes
at most `per_page` rows; the result never exceeds `per_page` entries, and a
page beyond the available rows yields the empty sequence rather than an
error, on both backends.  (When the `i64` offset computation overflows, the
wrapped offset is used instead: SQLite reads from the wrapped offset,
treating a negative wrap as 0, and Postgres fails with a persistence error
on a negative wrapped offset.) -/
theorem read_many_pagination (st : SqliteState) (pst : PgState)
    (page pp : Int) (s : Option SortOrder) (pf : Option Bool)
    (sf : Option String) (hp : 1 ≤ page) (hpp : 1 ≤ pp)
    (hfit : (page - 1) * pp ≤ 9223372036854775807) :
    sqliteReadEntries st (some page) (some pp) s pf sf =
      .ok (((visibleEntries st.rows s pf sf).drop
        ((page - 1) * pp).toNat).take pp.toNat) ∧
    (((visibleEntries st.rows s pf sf).drop
      ((page - 1) * pp).toNat).take pp.toNat).length ≤ pp.toNat ∧
    ((visibleEntries st.rows s pf sf).length ≤ ((page - 1) * pp).toNat →
      sqliteReadEntries st (some page) (some pp) s pf sf = .ok []) ∧
    pgReadEntries pst (some page) (some pp) s pf sf =
      .ok (((visibleEntries pst.rows s pf sf).drop
        ((page - 1) * pp).toNat).take pp.toNat) ∧
    (((visibleEntries pst.rows s pf sf).drop
      ((page - 1) * pp).toNat).take pp.toNat).length ≤ pp.toNat ∧
    ((visibleEntries pst.rows s pf sf).length ≤ ((page - 1) * pp).toNat →
      pgReadEntries pst (some page) (some pp) s pf sf = .ok []) := by
  have hcond : ¬(page < 1 ∨ pp < 1) := by omega
  have h0 : 0 ≤ (page - 1) * pp := mul_nonneg (by omega) (by omega)
  have hp1 : page - 1 ≤ (page - 1) * pp :=
    le_mul_of_one_le_right (by omega) hpp
  have hw1 : wrap64 (page - 1) = page - 1 :=
    wrap64_eq_self _ (by omega) (le_trans hp1 hfit)
  have hw2 : wrap64 ((page - 1) * pp) = (page - 1) * pp :=
    wrap64_eq_self _ (by linarith) hfit
  have hneg : ¬((page - 1) * pp < 0) := not_lt.mpr h0
  have heq1 : sqliteReadEntries st (some page) (some pp) s pf sf =
      .ok (((visibleEntries st.rows s pf sf).drop
        ((page - 1) * pp).toNat).take pp.toNat) := by
    simp only [sqliteReadEntries, Option.getD_some, hw1, hw2, if_neg hcond]
  have heq2 : pgReadEntries pst (some page) (some pp) s pf sf =
      .ok (((visibleEntries pst.rows s pf sf).drop
        ((page - 1) * pp).toNat).take pp.toNat) := by
    simp only [pgReadEntries, Option.getD_some, hw1, hw2, if_neg hcond,
      if_neg hneg]
  refine ⟨heq1, List.length_take_le _ _, ?_, heq2, List.length_take_le _ _, ?_⟩
  · intro hbeyond
    rw [heq1]
    have hlen : ((visibleEntries st.rows s pf sf).drop
        ((page - 1) * pp).toNat) = [] := by
      apply List.drop_eq_nil_of_le
      exact hbeyond
    rw [hlen, List.take_nil]
  · intro hbeyond
    rw [heq2]
    have hlen : ((visibleEntries pst.rows s pf sf).drop
        ((page - 1) * pp).toNat) = [] := by
      apply List.drop_eq_nil_of_le
      exact hbeyond
    rw [hlen, List.take_nil]

/-- C5 witness: at `page = 2`, `per_page = 3` on an empty table all three
hypotheses hold and the pagination equation is obtained from the theorem. -/
theorem read_many_pagination_witness :
    (1 : Int) ≤ 2 ∧ (1 : Int) ≤ 3 ∧
    ((2 : Int) - 1) * 3 ≤ 9223372036854775807 ∧
    sqliteReadEntries sqliteInit (some 2) (some 3) none none none =
      .ok (((visibleEntries sqliteInit.rows none none none).drop
        (((2 : Int) - 1) * 3).toNat).take (3 : Int).toNat) :=
  ⟨by decide, by decide, by decide,
    (read_many_pagination sqliteInit pgInit 2 3 none none none
      (by decide) (by decide) (by decide)).1⟩

/-- C6: any successful `read_many` result is sorted by the compound key
whose primary component is `created_at` and whose tie-break is `id`, in the
single direction given by the sort parameter (both components together),
and an absent sort parameter behaves exactly as `DESC`, on both backends. -/
theorem read_many_sorted (st : SqliteState) (pst : PgState)
    (page pp : Option Int) (pf : Option Bool) (sf : Option String) :
    (∀ (s : SortOrder) (l : List Entry),
      sqliteReadEntries st page pp (some s) pf sf = .ok l →
        l.Sorted (entryKeyLE s)) ∧
    (∀ (s : SortOrder) (l : List Entry),
      pgReadEntries pst page pp (some s) pf sf = .ok l →
        l.Sorted (entryKeyLE s)) ∧
    sqliteReadEntries st page pp none pf sf =
      sqliteReadEntries st page pp (some SortOrder.DESC) pf sf ∧
    pgReadEntries pst page pp none pf sf =
      pgReadEntries pst page pp (some SortOrder.DESC) pf sf := by
  refine ⟨?_, ?_, rfl, rfl⟩
  · intro s l h
    simp only [sqliteReadEntries, Option.getD_some] at h
    split at h
    · exact absurd h (by simp)
    · injection h with hl
      rw [← hl]
      exact sorted_slice st.rows s pf sf _ _
  · intro s l h
    simp only [pgReadEntries, Option.getD_some] at h
    split at h
    · exact absurd h (by simp)
    · split at h
      · exact absurd h (by simp)
      · injection h with hl
        rw [← hl]
        exact sorted_slice pst.rows s pf sf _ _

/-- C6 witness: reading a two-entry table ascending returns the two rows in
increasing `(created_at, id)` order, and the theorem certifies the result
sorted. -/
theorem read_many_sorted_witness :
    ([⟨1, "A", 0, some 0, false⟩, ⟨2, "B", 1, some 1, false⟩] :
      List Entry).Sorted (entryKeyLE SortOrder.ASC) :=
  (read_many_sorted
    (sqliteCreateEntry (sqliteCreateEntry sqliteInit 0 "A" false).2 1 "B" false).2
    pgInit none none none none).1 SortOrder.ASC _ rfl

/-- C7: `read_many` defaults an absent `page` to 1 and an absent `per_page`
to 10, and when a supplied value is below 1 it fails with the
`InvalidArgument` error "Page and per_page must be positive" — for every
table state, i.e. before any query is issued — on both backends. -/
theorem read_many_defaults_and_validation (st : SqliteState) (pst : PgState)
    (page pp : Int) (p2 pp2 : Option Int) (s : Option SortOrder)
    (pf : Option Bool) (sf : Option String) :
    sqliteReadEntries st none pp2 s pf sf =
      sqliteReadEntries st (some 1) pp2 s pf sf ∧
    sqliteReadEntries st p2 none s pf sf =
      sqliteReadEntries st p2 (some 10) s pf sf ∧
    (page < 1 ∨ pp < 1 →
      sqliteReadEntries st (some page) (some pp) s pf sf =
        .error (.invalidArgument "Page and per_page must be positive")) ∧
    pgReadEntries pst none pp2 s pf sf =
      pgReadEntries pst (some 1) pp2 s pf sf ∧
    pgReadEntries pst p2 none s pf sf =
      pgReadEntries pst p2 (some 10) s pf sf ∧
    (page < 1 ∨ pp < 1 →
      pgReadEntries pst (some page) (some pp) s pf sf =
        .error (.invalidArgument "Page and per_page must be positive")) := by
  refine ⟨rfl, rfl, ?_, rfl, rfl, ?_⟩
  · intro h
    unfold sqliteReadEntries
    simp only [Option.getD_some]
    rw [if_pos h]
  · intro h
    unfold pgReadEntries
    simp only [Option.getD_some]
    rw [if_pos h]

/-- C7 witness: `page = 0` is below 1, and the call fails with the
`InvalidArgument` error on a concrete table. -/
theorem read_many_defaults_and_validation_witness :
    ((0 : Int) < 1 ∨ (5 : Int) < 1) ∧
    sqliteReadEntries sqliteInit (some 0) (some 5) none none none =
      .error (.invalidArgument "Page and per_page must be positive") :=
  ⟨Or.inl (by decide),
    (read_many_defaults_and_validation sqliteInit pgInit 0 5 none none none
      none none).2.2.1 (Or.inl (by decide))⟩

/-- C8: facade construction selects the SQLite engine exactly for URLs
starting with `sqlite:`, the Postgres engine exactly for URLs starting with
`postgres:`, and fails with "Unsupported database URL" exactly for every
other URL (no URL starts with both prefixes). -/
theorem facade_scheme_dispatch (url : String) :
    (DiaryDB.new url = .ok Backend.sqlite ↔ startsWithRust url "sqlite:" = true) ∧
    (DiaryDB.new url = .ok Backend.postgres ↔
      startsWithRust url "postgres:" = true) ∧
    (DiaryDB.new url = .error "Unsupported database URL" ↔
      (startsWithRust url "sqlite:" = false ∧
        startsWithRust url "postgres:" = false)) := by
  unfold DiaryDB.new
  by_cases h1 : startsWithRust url "sqlite:" = true
  · have h2 : ¬ startsWithRust url "postgres:" = true := fun h2 =>
      startsWithRust_exclusive url ⟨h1, h2⟩
    simp [h1, h2]
  · by_cases h2 : startsWithRust url "postgres:" = true
    · simp [h1, h2]
    · simp [h1, h2]

/-- C10: whenever `update` fails (missing id, or no field supplied) or
`delete` fails (missing id), the error is produced by an early return
before any mutating SQL statement, so the table state after the failed
call equals the state before it, on both backends. -/
theorem update_delete_error_atomic (st : SqliteState) (pst : PgState)
    (now : Nat) (id : Int) (c : Option String) (p : Option Bool) :
    (∀ e, (sqliteUpdateEntry st now id c p).1 = .error e →
      (sqliteUpdateEntry st now id c p).2 = st) ∧
    (∀ e, (sqliteDeleteEntry st id).1 = .error e →
      (sqliteDeleteEntry st id).2 = st) ∧
    (∀ e, (pgUpdateEntry pst now id c p).1 = .error e →
      (pgUpdateEntry pst now id c p).2 = pst) ∧
    (∀ e, (pgDeleteEntry pst id).1 = .error e →
      (pgDeleteEntry pst id).2 = pst) := by
  refine ⟨?_, ?_, ?_, ?_⟩
  · intro e h
    unfold sqliteUpdateEntry at h ⊢
    by_cases h1 : (!sqliteCheckIfEntryExists st id) = true
    · rw [if_pos h1]
    · rw [if_neg h1] at h ⊢
      by_cases h2 : (c.isNone && p.isNone) = true
      · rw [if_pos h2]
      · rw [if_neg h2] at h ⊢
        cases hf : List.find? (fun x => x.id == id) st.rows with
        | some e0 =>
          rw [hf] at h
          exact absurd h (by simp)
        | none => rfl
  · intro e h
    unfold sqliteDeleteEntry at h ⊢
    by_cases h1 : (!sqliteCheckIfEntryExists st id) = true
    · rw [if_pos h1]
    · rw [if_neg h1] at h
      exact absurd h (by simp)
  · intro e h
    unfold pgUpdateEntry at h ⊢
    by_cases h1 : (!pgCheckIfEntryExists pst id) = true
    · rw [if_pos h1]
    · rw [if_neg h1] at h ⊢
      by_cases h2 : (c.isNone && p.isNone) = true
      · rw [if_pos h2]
      · rw [if_neg h2] at h ⊢
        cases hf : List.find? (fun x => x.id == id) pst.rows with
        | some e0 =>
          rw [hf] at h
          exact absurd h (by simp)
        | none => rfl
  · intro e h
    unfold pgDeleteEntry at h ⊢
    by_cases h1 : (!pgCheckIfEntryExists pst id) = true
    · rw [if_pos h1]
    · rw [if_neg h1] at h
      exact absurd h (by simp)

/-- C10 witness: on the empty table, `update(1, None, None)` and
`delete(1)` fail, and the theorem yields that the state is unchanged. -/
theorem update_delete_error_atomic_witness :
    (sqliteUpdateEntry sqliteInit 0 1 none none).1 = .error (.notFound 1) ∧
    (sqliteUpdateEntry sqliteInit 0 1 none none).2 = sqliteInit ∧
    (sqliteDeleteEntry sqliteInit 1).1 = .error (.notFound 1) ∧
    (sqliteDeleteEntry sqliteInit 1).2 = sqliteInit ∧
    (pgUpdateEntry pgInit 0 1 none none).2 = pgInit ∧
    (pgDeleteEntry pgInit 1).2 = pgInit := by
  have h := update_delete_error_atomic sqliteInit pgInit 0 1 none none
  exact ⟨rfl, h.1 _ rfl, rfl, h.2.1 _ rfl, h.2.2.1 _ rfl, h.2.2.2 _ rfl⟩

/-- C8 witness: concrete URLs of each kind dispatch as the theorem states. -/
theorem facade_scheme_dispatch_witness :
    DiaryDB.new "sqlite:diary.db" = .ok Backend.sqlite ∧
    DiaryDB.new "postgres://localhost/diary" = .ok Backend.postgres ∧
    DiaryDB.new "mysql://localhost/diary" = .error "Unsupported database URL" :=
  ⟨(facade_scheme_dispatch "sqlite:diary.db").1.mpr (by decide),
   (facade_scheme_dispatch "postgres://localhost/diary").2.1.mpr (by decide),
   (facade_scheme_dispatch "mysql://localhost/diary").2.2.mpr (by decide)⟩
